import Mathlib

/-
Verification of the Chip-16 emulator core (src/src/main.rs).

The machine state and the fetch-decode-execute cycle are embedded as
executable Lean definitions, one-for-one with the Rust source:

  * `memory` is the 0xFFFF-byte array; an index beyond the bound models the
    Rust slice/array panic as `Fault.oobMemory`.
  * registers are `i16` values, modelled as `Int` with explicit wraparound
    (`wrap16`) where the source uses `overflowing_add`/`overflowing_sub`.
  * `Flags` is the bitflags register (CARRY, ZERO, OVERFLOW, NEGATIVE) as
    four independent booleans; `|=` becomes setting a field to `true`,
    `&= !F` becomes setting it to `false`.
  * the shared framebuffer (`Vec<u32>` of WIDTH*HEIGHT cells behind a mutex)
    is a function `Nat → Nat`; an out-of-range `buff[pos]` write models the
    Vec index panic as `Fault.oobFramebuffer`.
  * a `panic!` on an unknown opcode or jump-condition selector is
    `Fault.unknownInstr`.
-/

namespace Chip16

/-- WIDTH constant of the source. -/
def WIDTH : Nat := 320

/-- HEIGHT constant of the source. -/
def HEIGHT : Nat := 240

/-- Size of the memory array: `const MEMORY: usize = 0xFFFF`. -/
def MEMORY : Nat := 0xFFFF

/-- Number of framebuffer cells: the buffer is `vec![0; WIDTH * HEIGHT]`. -/
def FBSIZE : Nat := WIDTH * HEIGHT

/-- Stack start constant: `const STACK_START: u16 = 0xFDF0`. -/
def STACK_START : Nat := 0xFDF0

/-- The 16-entry color palette of the source (`enum Color`). -/
inductive Color : Type
  | Transparent
  | Black
  | Gray
  | Red
  | Pink
  | DarkBrown
  | Brown
  | Orange
  | Yelow
  | Green
  | LightGreen
  | DarkBlue
  | Blue
  | LightBlue
  | SkyBlue
  | White
deriving DecidableEq, Repr

/-- `impl From<u8> for Color`: only 0xF maps to White, everything else to
Transparent. -/
def Color.fromByte (v : Nat) : Color :=
  if v = 0xF then Color.White else Color.Transparent

/-- `impl Into<u32> for Color`: White packs to 0xFFFFFFFF, everything else
to 0x00000000. -/
def Color.toU32 : Color → Nat
  | Color.White => 0xFFFFFFFF
  | _ => 0x00000000

/-- The bitflags register, one boolean per documented bit. -/
structure Flags where
  carry : Bool
  zero : Bool
  overflow : Bool
  negative : Bool
deriving DecidableEq, Repr

/-- `CLEAR`, the all-clear flags value. -/
def Flags.clear : Flags := ⟨false, false, false, false⟩

/-- The continuation signal returned by `cycle` (`enum State`). -/
inductive MState : Type
  | Continue
  | Stop
deriving DecidableEq, Repr

/-- The fault taxonomy: a Rust panic inside `cycle`, split by its site.
`unknownInstr` is the explicit `panic!` for an opcode or jump selector not
in the dispatch table; `oobMemory` is an out-of-bounds index into `memory`;
`oobFramebuffer` is an out-of-bounds index into the framebuffer Vec. -/
inductive Fault : Type
  | unknownInstr
  | oobMemory
  | oobFramebuffer
deriving DecidableEq, Repr

/-- The framebuffer contents: cell index to packed 32-bit color value. -/
def Buff : Type := Nat → Nat

/-- The machine state `struct CHIP16`. -/
structure CHIP16 where
  memory : Nat → Nat
  pc : Nat
  sp : Nat
  regs : Nat → Int
  flags : Flags
  bg : Color
  fg : Color
  spritew : Nat
  spriteh : Nat
  vblank : Bool

/-- Reinterpret a 16-bit value as signed (`as i16` on a u16). -/
def toI16 (n : Nat) : Int :=
  if n % 65536 < 32768 then (n % 65536 : Int) else (n % 65536 : Int) - 65536

/-- Wrap an integer into the i16 range, the result of Rust wrapping/
overflowing 16-bit arithmetic. -/
def wrap16 (n : Int) : Int := (n + 32768) % 65536 - 32768

/-- `i16::overflowing_add`: the wrapped result and the overflow bit. -/
def overflowingAdd (a b : Int) : Int × Bool :=
  (wrap16 (a + b), decide (wrap16 (a + b) ≠ a + b))

/-- `i16::overflowing_sub`: the wrapped result and the overflow bit. -/
def overflowingSub (a b : Int) : Int × Bool :=
  (wrap16 (a - b), decide (wrap16 (a - b) ≠ a - b))

/-- Rust `as usize` on a (conceptually i64) signed value: two's-complement
cast into 64 bits. A negative value becomes a huge unsigned index. -/
def usizeCast (v : Int) : Nat := (v % (2 ^ 64)).toNat

/-- A bounds-checked framebuffer store: `buff[pos] = v` on the
WIDTH*HEIGHT Vec, faulting like the Rust index panic when out of range. -/
def buffWrite (b : Buff) (pos : Nat) (v : Nat) : Except Fault Buff :=
  if pos < FBSIZE then Except.ok (Function.update b pos v)
  else Except.error Fault.oobFramebuffer

/-- The inner DRW loop `for i in 0..self.spritew`, transcribed from the
source: read the sprite byte at `addr` (faulting if out of memory bounds),
split it into two palette nibbles, write both pixels unconditionally at
`pos = xpos + ypos * WIDTH` (cast as usize), then advance
`addr += (i * j + spritew) mod 256` and `xpos += i * 2` (i16 wraparound).
Arguments after `ypos`: remaining iteration count, current `i`, `xpos`,
`addr`, the framebuffer. Returns the final `xpos`, `addr`, framebuffer. -/
def drwInner (mem : Nat → Nat) (spritew j : Nat) (ypos : Int) :
    Nat → Nat → Int → Nat → Buff → Except Fault (Int × Nat × Buff)
  | 0, _, xpos, addr, buff => Except.ok (xpos, addr, buff)
  | fuel + 1, i, xpos, addr, buff =>
    if addr < MEMORY then
      let color := mem addr
      let left := Color.fromByte ((color &&& 0xF0) >>> 4)
      let right := Color.fromByte (color &&& 0x0F)
      let pos := usizeCast (xpos + ypos * (WIDTH : Int))
      match buffWrite buff pos left.toU32 with
      | Except.error e => Except.error e
      | Except.ok buff1 =>
        match buffWrite buff1 (pos + 1) right.toU32 with
        | Except.error e => Except.error e
        | Except.ok buff2 =>
          drwInner mem spritew j ypos fuel (i + 1)
            (wrap16 (xpos + (i : Int) * 2))
            (addr + (i * j + spritew) % 256) buff2
    else Except.error Fault.oobMemory

/-- The outer DRW loop `for j in 0..self.spriteh`: each row first does
`ypos += j` (i16 wraparound), then runs the inner loop; `xpos` and `addr`
carry over between rows exactly as in the source. Arguments after
`spriteh`: remaining iteration count, current `j`, `xpos`, `ypos`, `addr`,
the framebuffer. -/
def drwOuter (mem : Nat → Nat) (spritew : Nat) :
    Nat → Nat → Int → Int → Nat → Buff → Except Fault Buff
  | 0, _, _, _, _, buff => Except.ok buff
  | fuel + 1, j, xpos, ypos, addr, buff =>
    let ypos1 := wrap16 (ypos + (j : Int))
    match drwInner mem spritew j ypos1 spritew 0 xpos addr buff with
    | Except.error e => Except.error e
    | Except.ok (xpos1, addr1, buff1) =>
      drwOuter mem spritew fuel (j + 1) xpos1 ypos1 addr1 buff1

/-- The flag-update block shared verbatim by the three SUB arms (0x50,
0x51, 0x52) of the source: starting from the current flags `f0`, Carry is
set iff `a < b` (the pre-operation operands, signed), Overflow iff
`overflowing_sub` reports overflow, then Negative and Zero from the
result, each bit written in both branches of its `if`. -/
def subFlags (f0 : Flags) (a b : Int) : Flags :=
  let res := (overflowingSub a b).1
  let of := (overflowingSub a b).2
  let f1 := if a < b then { f0 with carry := true } else { f0 with carry := false }
  let f2 := if of then { f1 with overflow := true } else { f1 with overflow := false }
  let f3 := if res < 0 then { f2 with negative := true } else { f2 with negative := false }
  if res = 0 then { f3 with zero := true } else { f3 with zero := false }

/-- The opcode dispatch of `cycle`, after fetch and decode. `s` already has
PC advanced by 4 (`self.pc += 4` happens before the match); `rx`, `ry` were
read before the advance. Each arm is a transcription of the corresponding
match arm of the source. -/
def dispatch (op x y z b2 b3 hhll : Nat) (rx ry : Int) (s : CHIP16)
    (screen : Buff) : Except Fault (CHIP16 × Buff × MState) :=
  match op with
  | 0x01 =>
    let s1 := { s with fg := Color.Transparent, bg := Color.Transparent }
    Except.ok (s1, fun _ => s1.bg.toU32, MState.Continue)
  | 0x02 =>
    if !s.vblank then
      Except.ok ({ s with pc := s.pc - 4 }, screen, MState.Continue)
    else
      Except.ok ({ s with vblank := false }, screen, MState.Continue)
  | 0x03 =>
    Except.ok ({ s with bg := Color.fromByte (b2 &&& 0x0F) }, screen,
      MState.Continue)
  | 0x04 =>
    Except.ok ({ s with spritew := b2, spriteh := b3 }, screen,
      MState.Continue)
  | 0x05 =>
    match drwOuter s.memory s.spritew s.spriteh 0 rx ry hhll screen with
    | Except.error e => Except.error e
    | Except.ok buff1 => Except.ok (s, buff1, MState.Continue)
  | 0x10 =>
    Except.ok ({ s with pc := hhll }, screen, MState.Continue)
  | 0x12 =>
    match x with
    | 0x00 =>
      if s.flags.zero then
        Except.ok ({ s with pc := hhll }, screen, MState.Continue)
      else
        Except.ok (s, screen, MState.Continue)
    | 0x09 =>
      if s.flags.carry then
        Except.ok ({ s with pc := hhll }, screen, MState.Continue)
      else
        Except.ok (s, screen, MState.Continue)
    | _ => Except.error Fault.unknownInstr
  | 0x13 =>
    if rx = ry then
      Except.ok ({ s with pc := hhll }, screen, MState.Continue)
    else
      Except.ok (s, screen, MState.Continue)
  | 0x20 =>
    Except.ok ({ s with regs := Function.update s.regs x (toI16 hhll) },
      screen, MState.Continue)
  | 0x24 =>
    Except.ok ({ s with regs := Function.update s.regs x ry }, screen,
      MState.Continue)
  | 0x41 =>
    let res := (overflowingAdd rx ry).1
    let of := (overflowingAdd rx ry).2
    let f0 := s.flags
    let f1 := if of then { f0 with carry := true } else { f0 with carry := true }
    let f2 :=
      if (rx < 0 ∧ ry < 0 ∧ 0 ≤ res) ∨ (0 ≤ rx ∧ 0 ≤ ry ∧ res < 0) then
        { f1 with overflow := true }
      else { f1 with overflow := false }
    let f3 := if res = 0 then { f2 with zero := true } else { f2 with zero := false }
    let f4 := if res < 0 then { f3 with negative := true } else { f3 with negative := false }
    Except.ok ({ s with regs := Function.update s.regs x res, flags := f4 },
      screen, MState.Continue)
  | 0x50 =>
    let res := (overflowingSub rx (toI16 hhll)).1
    Except.ok
      ({ s with
          regs := Function.update s.regs x res
          flags := subFlags s.flags rx (toI16 hhll) },
        screen, MState.Continue)
  | 0x51 =>
    let res := (overflowingSub rx ry).1
    Except.ok
      ({ s with
          regs := Function.update s.regs x res
          flags := subFlags s.flags rx ry },
        screen, MState.Continue)
  | 0x52 =>
    let res := (overflowingSub rx ry).1
    Except.ok
      ({ s with
          regs := Function.update s.regs z res
          flags := subFlags s.flags rx ry },
        screen, MState.Continue)
  | _ => Except.error Fault.unknownInstr

/-- Register index `x`: low nibble of the second instruction byte. -/
def xIdx (s : CHIP16) : Nat := s.memory (s.pc + 1) &&& 0x0F

/-- Register index `y`: high nibble of the second instruction byte. -/
def yIdx (s : CHIP16) : Nat := (s.memory (s.pc + 1) &&& 0xF0) >>> 4

/-- Register index `z`: low nibble of the third instruction byte. -/
def zIdx (s : CHIP16) : Nat := s.memory (s.pc + 2) &&& 0x0F

/-- The 16-bit little-endian immediate `hhll` of the current instruction. -/
def hhllOf (s : CHIP16) : Nat :=
  (s.memory (s.pc + 3)) <<< 8 ||| (s.memory (s.pc + 2))

/-- One fetch-decode-execute cycle, transcribed from `CHIP16::cycle`. The
slice `&self.memory[pc..pc+4]` faults when it exceeds the array bound; the
(dead) operand pre-load `self.memory[hhll as usize]` likewise faults when
`hhll` is out of bounds; then PC is advanced by 4 and the opcode is
dispatched. -/
def cycle (s : CHIP16) (screen : Buff) : Except Fault (CHIP16 × Buff × MState) :=
  if s.pc + 4 ≤ MEMORY then
    if hhllOf s < MEMORY then
      dispatch (s.memory s.pc) (xIdx s) (yIdx s) (zIdx s)
        (s.memory (s.pc + 2)) (s.memory (s.pc + 3)) (hhllOf s)
        (s.regs (xIdx s)) (s.regs (yIdx s))
        { s with pc := s.pc + 4 } screen
    else Except.error Fault.oobMemory
  else Except.error Fault.oobMemory

/-- The opcodes handled by the dispatch table. -/
def knownOps : List Nat :=
  [0x01, 0x02, 0x03, 0x04, 0x05, 0x10, 0x12, 0x13, 0x20, 0x24, 0x41, 0x50,
   0x51, 0x52]

/-- The flags of a successful cycle result. -/
def flagsOf (e : Except Fault (CHIP16 × Buff × MState)) : Option Flags :=
  e.toOption.map fun r => r.1.flags

/-- A given register of a successful cycle result. -/
def regOf (e : Except Fault (CHIP16 × Buff × MState)) (i : Nat) : Option Int :=
  e.toOption.map fun r => r.1.regs i

/-- A given framebuffer cell of a successful cycle result. -/
def cellOf (e : Except Fault (CHIP16 × Buff × MState)) (i : Nat) : Option Nat :=
  e.toOption.map fun r => r.2.1 i

/-- The fault of a failed cycle result. -/
def faultOf {α : Type} : Except Fault α → Option Fault
  | Except.error f => some f
  | Except.ok _ => none

/-- A memory image from a list of bytes loaded at address 0, zero elsewhere
(the memory array is zero-initialized). -/
def memOf (l : List Nat) : Nat → Nat := fun a => l.getD a 0

/-- A register file from a list of values, zero elsewhere. -/
def regsOf (l : List Int) : Nat → Int := fun i => l.getD i 0

/-- An all-zero framebuffer (`vec![0; WIDTH * HEIGHT]`). -/
def buff0 : Buff := fun _ => 0

/-- A framebuffer whose every cell holds the (non-background) value 7. -/
def buff7 : Buff := fun _ => 7

/-- The post-load machine state for an all-zero cartridge starting at 0:
this is what `CHIP16::new` produces before any instruction runs. -/
def base : CHIP16 where
  memory := fun _ => 0
  pc := 0
  sp := STACK_START
  regs := fun _ => 0
  flags := Flags.clear
  bg := Color.Transparent
  fg := Color.Transparent
  spritew := 0
  spriteh := 0
  vblank := false

/-- Concrete state: `ADD R0, R1` with R0 = 3, R1 = 4. -/
def sAdd : CHIP16 :=
  { base with memory := memOf [0x41, 0x10, 0, 0], regs := regsOf [3, 4] }

/-- Concrete state: `SUB R0, 10` with R0 = 5 (the spec's `5 - 10` example). -/
def sSubI : CHIP16 :=
  { base with memory := memOf [0x50, 0x00, 10, 0], regs := regsOf [5] }

/-- Concrete state: `SUB R0, R1` (opcode 0x51) with R0 = 5, R1 = 3. -/
def sSub51 : CHIP16 :=
  { base with memory := memOf [0x51, 0x10, 0, 0], regs := regsOf [5, 3] }

/-- Concrete state: `SUB R0, R1, R2` (opcode 0x52, z = 2) with R0 = 5,
R1 = 3. -/
def sSub52 : CHIP16 :=
  { base with memory := memOf [0x52, 0x10, 0x02, 0], regs := regsOf [5, 3] }

/-- Concrete state: `SUB R0, R1, R0` (opcode 0x52 with destination z = 0
equal to source x = 0) with R0 = 5, R1 = 3. -/
def sSub52x : CHIP16 :=
  { base with memory := memOf [0x52, 0x10, 0x00, 0], regs := regsOf [5, 3] }

/-- Concrete state: `VBLNK` with the vertical-blank latch clear. -/
def sVbl0 : CHIP16 := { base with memory := memOf [0x02, 0, 0, 0] }

/-- Concrete state: `VBLNK` with the vertical-blank latch set. -/
def sVbl1 : CHIP16 :=
  { base with memory := memOf [0x02, 0, 0, 0], vblank := true }

/-- Concrete state: unknown opcode 0x99 whose immediate bytes are FF FF, so
`hhll = 0xFFFF` and the pre-dispatch operand load is out of bounds. -/
def sBadFF : CHIP16 := { base with memory := memOf [0x99, 0, 0xFF, 0xFF] }

/-- Concrete state: unknown opcode 0x99 with in-bounds immediate. -/
def sBad : CHIP16 := { base with memory := memOf [0x99, 0, 0, 0] }

/-- Concrete state: `DRW R0, R1, 0x0010` of a 1-by-1 sprite whose single
byte is 0x00 (both nibbles palette index 0, i.e. fully transparent), at
position (0, 0). -/
def sDrwT : CHIP16 :=
  { base with
      memory := memOf [0x05, 0x10, 0x10, 0]
      spritew := 1
      spriteh := 1 }

/-- Concrete state: `DRW R0, R1, 0x0010` of a 1-by-1 sprite at position
(0, 240), one row below the bottom of the 320-by-240 framebuffer. -/
def sDrwOob : CHIP16 :=
  { base with
      memory := memOf [0x05, 0x10, 0x10, 0]
      regs := regsOf [0, 240]
      spritew := 1
      spriteh := 1 }

/-- Concrete state: the fully-transparent 1-by-1 `DRW` of `sDrwT` but with
the Carry flag initially set; no sprite pixel is non-transparent, so the
claimed collision rule demands that Carry be cleared. -/
def sDrwC : CHIP16 :=
  { base with
      memory := memOf [0x05, 0x10, 0x10, 0]
      spritew := 1
      spriteh := 1
      flags := ⟨true, false, false, false⟩ }

/-- Concrete state: `BGC 0xF` (set background to White) at address 0
followed by `CLS` at address 4. -/
def sBgcCls : CHIP16 :=
  { base with memory := memOf [0x03, 0x00, 0x0F, 0x00, 0x01, 0, 0, 0] }

/-- Concrete state: `CLS` executed while the background color is White. -/
def sCls : CHIP16 :=
  { base with memory := memOf [0x01, 0, 0, 0], bg := Color.White }

/-- Concrete state: `JME R0, R1, 0x0008` with R0 = R1 = 0 (jump taken). -/
def sJme : CHIP16 := { base with memory := memOf [0x13, 0x10, 8, 0] }

/-- The result of one cycle on `sJme`: the jump is taken, PC becomes 8. -/
def rJme : CHIP16 × Buff × MState := ({ sJme with pc := 8 }, buff0, MState.Continue)

theorem cycle_eq_dispatch (s : CHIP16) (screen : Buff) (hf : s.pc + 4 ≤ MEMORY)
    (hv : hhllOf s < MEMORY) :
    cycle s screen = dispatch (s.memory s.pc) (xIdx s) (yIdx s) (zIdx s)
      (s.memory (s.pc + 2)) (s.memory (s.pc + 3)) (hhllOf s)
      (s.regs (xIdx s)) (s.regs (yIdx s)) { s with pc := s.pc + 4 } screen := by
  unfold cycle
  rw [if_pos hf, if_pos hv]

theorem subFlags_mk (f : Flags) (a b : Int) :
    subFlags f a b =
      { carry := decide (a < b)
        zero := decide (wrap16 (a - b) = 0)
        overflow := decide (wrap16 (a - b) ≠ a - b)
        negative := decide (wrap16 (a - b) < 0) } := by
  simp only [subFlags, overflowingSub]
  split <;> split <;> split <;> split <;> simp_all <;> omega

/-- Claim C1: executing opcode 0x41 (ADD reg,reg) stores
`regs[x] + regs[y]` with 16-bit wraparound into `regs[x]`, sets Carry on
every execution regardless of actual overflow, sets Overflow iff the two
operands have the same sign and the result's sign differs, sets Zero iff
the result is 0, and sets Negative iff the result is negative. -/
theorem add_rr_spec (s : CHIP16) (screen : Buff)
    (hf : s.pc + 4 ≤ MEMORY) (hv : hhllOf s < MEMORY)
    (hop : s.memory s.pc = 0x41) :
    cycle s screen = Except.ok
      ({ s with
          pc := s.pc + 4
          regs := Function.update s.regs (xIdx s)
            (wrap16 (s.regs (xIdx s) + s.regs (yIdx s)))
          flags :=
            { carry := true
              zero := decide (wrap16 (s.regs (xIdx s) + s.regs (yIdx s)) = 0)
              overflow := decide
                ((s.regs (xIdx s) < 0 ∧ s.regs (yIdx s) < 0 ∧
                    0 ≤ wrap16 (s.regs (xIdx s) + s.regs (yIdx s))) ∨
                 (0 ≤ s.regs (xIdx s) ∧ 0 ≤ s.regs (yIdx s) ∧
                    wrap16 (s.regs (xIdx s) + s.regs (yIdx s)) < 0))
              negative := decide (wrap16 (s.regs (xIdx s) + s.regs (yIdx s)) < 0) } },
        screen, MState.Continue) := by
  rw [cycle_eq_dispatch s screen hf hv, hop]
  simp only [dispatch, overflowingAdd, ite_self]
  split <;> split <;> split <;> simp_all

/-- Witness for C1: `ADD R0, R1` with R0 = 3, R1 = 4 gives R0 = 7, Carry
set, all other flags clear. -/
theorem add_rr_spec_witness :
    cycle sAdd buff0 = Except.ok
      ({ sAdd with
          pc := 4
          regs := Function.update sAdd.regs 0 7
          flags := ⟨true, false, false, false⟩ }, buff0, MState.Continue) := by
  have h := add_rr_spec sAdd buff0 (by decide) (by decide) rfl
  rw [h]
  rfl

/-- Claim C2: executing opcode 0x50 (SUB reg,imm) stores `regs[x] - hhll`
with 16-bit wraparound into `regs[x]`, sets Carry iff `regs[x] < hhll`
under signed 16-bit comparison of the pre-operation operands (clearing it
otherwise), sets Overflow iff the signed subtraction overflows, Zero iff
the result is 0, Negative iff the result is negative. -/
theorem sub_ri_spec (s : CHIP16) (screen : Buff)
    (hf : s.pc + 4 ≤ MEMORY) (hv : hhllOf s < MEMORY)
    (hop : s.memory s.pc = 0x50) :
    cycle s screen = Except.ok
      ({ s with
          pc := s.pc + 4
          regs := Function.update s.regs (xIdx s)
            (wrap16 (s.regs (xIdx s) - toI16 (hhllOf s)))
          flags :=
            { carry := decide (s.regs (xIdx s) < toI16 (hhllOf s))
              zero := decide (wrap16 (s.regs (xIdx s) - toI16 (hhllOf s)) = 0)
              overflow := decide
                (wrap16 (s.regs (xIdx s) - toI16 (hhllOf s)) ≠
                  s.regs (xIdx s) - toI16 (hhllOf s))
              negative := decide (wrap16 (s.regs (xIdx s) - toI16 (hhllOf s)) < 0) } },
        screen, MState.Continue) := by
  rw [cycle_eq_dispatch s screen hf hv, hop]
  simp only [dispatch, subFlags_mk, overflowingSub]

/-- Witness for C2: `SUB R0, 10` with R0 = 5 (the spec's `5 - 10` test)
gives R0 = -5, Carry set, Negative set, Zero and Overflow clear. -/
theorem sub_ri_spec_witness :
    cycle sSubI buff0 = Except.ok
      ({ sSubI with
          pc := 4
          regs := Function.update sSubI.regs 0 (-5)
          flags := ⟨true, false, false, true⟩ }, buff0, MState.Continue) := by
  have h := sub_ri_spec sSubI buff0 (by decide) (by decide) rfl
  rw [h]
  rfl

/-- Claim C3 (amended): opcodes 0x51 and 0x52 executed on identical operand
values produce identical Carry, Zero, Overflow and Negative flag results
(for every destination index `z`, aliasing or not, since the flags are
computed from the pre-read operands), and after executing 0x52 with a
destination index `z` distinct from both `x` and `y`, `regs[x]` and
`regs[y]` hold the values they held before execution (the result going
only to `regs[z]`). -/
theorem sub_variants_agree (s t : CHIP16) (bs bt : Buff)
    (hfs : s.pc + 4 ≤ MEMORY) (hvs : hhllOf s < MEMORY)
    (hop51 : s.memory s.pc = 0x51)
    (hft : t.pc + 4 ≤ MEMORY) (hvt : hhllOf t < MEMORY)
    (hop52 : t.memory t.pc = 0x52)
    (hrx : t.regs (xIdx t) = s.regs (xIdx s))
    (hry : t.regs (yIdx t) = s.regs (yIdx s)) :
    flagsOf (cycle s bs) = flagsOf (cycle t bt) ∧
    (zIdx t ≠ xIdx t →
      regOf (cycle t bt) (xIdx t) = some (t.regs (xIdx t))) ∧
    (zIdx t ≠ yIdx t →
      regOf (cycle t bt) (yIdx t) = some (t.regs (yIdx t))) := by
  rw [cycle_eq_dispatch s bs hfs hvs, cycle_eq_dispatch t bt hft hvt, hop51,
    hop52]
  simp only [dispatch, flagsOf, regOf, Except.toOption, Option.map, hrx, hry,
    subFlags_mk]
  refine ⟨trivial, fun hzx => ?_, fun hzy => ?_⟩
  · rw [Function.update_noteq (Ne.symm hzx), hrx]
  · rw [Function.update_noteq (Ne.symm hzy), hry]

/-- Counterexample for C3 as stated: with destination index z = 0 equal to
source index x = 0, executing 0x52 changes `regs[x]` from 5 to 2, so the
source registers are not left unchanged for every choice of x, y, z. -/
theorem sub_variants_agree_cex :
    sSub52x.memory sSub52x.pc = 0x52 ∧ xIdx sSub52x = 0 ∧
    zIdx sSub52x = 0 ∧ sSub52x.regs 0 = 5 ∧
    regOf (cycle sSub52x buff0) 0 = some 2 := by decide

/-- Witness for C3 (amended): `SUB R0, R1` (0x51) and `SUB R0, R1, R2`
(0x52) with R0 = 5, R1 = 3 produce the same flags, and 0x52 (whose z = 2
is distinct from x = 0 and y = 1) leaves R0 and R1 unchanged. -/
theorem sub_variants_agree_witness :
    flagsOf (cycle sSub51 buff0) = flagsOf (cycle sSub52 buff0) ∧
    (zIdx sSub52 ≠ xIdx sSub52 →
      regOf (cycle sSub52 buff0) (xIdx sSub52) =
        some (sSub52.regs (xIdx sSub52))) ∧
    (zIdx sSub52 ≠ yIdx sSub52 →
      regOf (cycle sSub52 buff0) (yIdx sSub52) =
        some (sSub52.regs (yIdx sSub52))) :=
  sub_variants_agree sSub51 sSub52 buff0 buff0 (by decide) (by decide) rfl
    (by decide) (by decide) rfl (by decide) (by decide)

/-- Claim C4: executing opcode 0x02 (VBLNK) when the vertical-blank latch
is clear leaves the machine state (PC included) and the framebuffer
exactly as they were before the cycle; when the latch is set, it clears
the latch and leaves PC advanced by 4. -/
theorem vblnk_spec (s : CHIP16) (screen : Buff)
    (hf : s.pc + 4 ≤ MEMORY) (hv : hhllOf s < MEMORY)
    (hop : s.memory s.pc = 0x02) :
    (s.vblank = false →
      cycle s screen = Except.ok (s, screen, MState.Continue)) ∧
    (s.vblank = true → cycle s screen = Except.ok
      ({ s with
          pc := s.pc + 4
          vblank := false }, screen, MState.Continue)) := by
  rw [cycle_eq_dispatch s screen hf hv, hop]
  obtain ⟨mem, pc, sp, regs, fl, bg, fg, sw, sh, vb⟩ := s
  constructor <;> intro hvb <;> subst hvb <;> simp [dispatch]

/-- Witness for C4: a VBLNK instruction with the latch clear leaves the
state untouched (the PC pre-advance is rewound). -/
theorem vblnk_spec_witness :
    (sVbl0.vblank = false →
      cycle sVbl0 buff0 = Except.ok (sVbl0, buff0, MState.Continue)) ∧
    (sVbl0.vblank = true → cycle sVbl0 buff0 = Except.ok
      ({ sVbl0 with
          pc := 4
          vblank := false }, buff0, MState.Continue)) :=
  vblnk_spec sVbl0 buff0 (by decide) (by decide) rfl

/-- Claim C5 (amended): provided the instruction fetch and the pre-dispatch
operand load at `hhll` are both in bounds, any opcode outside the dispatch
table, and opcode 0x12 with a condition selector other than 0x00 and 0x09,
make the cycle raise the unrecognized-instruction fault. -/
theorem unknown_instruction_fault (s : CHIP16) (screen : Buff)
    (hf : s.pc + 4 ≤ MEMORY) (hv : hhllOf s < MEMORY)
    (h : s.memory s.pc ∉ knownOps ∨
      (s.memory s.pc = 0x12 ∧ xIdx s ≠ 0x00 ∧ xIdx s ≠ 0x09)) :
    cycle s screen = Except.error Fault.unknownInstr := by
  rw [cycle_eq_dispatch s screen hf hv]
  rcases h with h | ⟨h12, hx0, hx9⟩
  · unfold dispatch
    split <;> simp_all [knownOps]
  · rw [h12]
    simp only [dispatch]

/-- Counterexample for C5 as stated: opcode 0x99 (not in the dispatch
table) whose immediate bytes are FF FF makes the pre-dispatch operand load
`memory[hhll]` index past the 0xFFFF-byte array, so the cycle raises the
out-of-bounds memory fault, not the unrecognized-instruction fault. -/
theorem unknown_instruction_fault_cex :
    sBadFF.memory sBadFF.pc = 0x99 ∧ sBadFF.memory sBadFF.pc ∉ knownOps ∧
    faultOf (cycle sBadFF buff0) = some Fault.oobMemory ∧
    faultOf (cycle sBadFF buff0) ≠ some Fault.unknownInstr := by decide

/-- Witness for C5 (amended): opcode 0x99 with in-bounds operands raises
the unrecognized-instruction fault. -/
theorem unknown_instruction_fault_witness :
    cycle sBad buff0 = Except.error Fault.unknownInstr :=
  unknown_instruction_fault sBad buff0 (by decide) (by decide)
    (Or.inl (by decide))

/-- Claim C6, evaluated at the failing input: the DRW loop writes every
pixel unconditionally, so drawing a 1-by-1 sprite whose single byte packs
two palette-index-0 (transparent) pixels over a framebuffer holding 7 in
every cell overwrites cells 0 and 1 with the packed value 0 instead of
leaving them unchanged. -/
theorem drw_transparent_pixels_overwrite :
    sDrwT.memory (hhllOf sDrwT) = 0 ∧ buff7 0 = 7 ∧ buff7 1 = 7 ∧
    cellOf (cycle sDrwT buff7) 0 = some 0 ∧
    cellOf (cycle sDrwT buff7) 1 = some 0 := by decide

/-- Claim C7, evaluated at the failing input: the DRW loop performs no
bounds check, so drawing a 1-by-1 sprite at position (0, 240) — one row
below the visible area — indexes the framebuffer at 240 * 320 = 76800 and
the cycle faults instead of silently dropping the out-of-range pixel. -/
theorem drw_out_of_bounds_faults :
    sDrwOob.regs (yIdx sDrwOob) = 240 ∧
    faultOf (cycle sDrwOob buff0) = some Fault.oobFramebuffer := by decide

/-- Claim C8, evaluated at the failing input: the DRW arm never touches the
flags (the source holds a TODO for collision), so after drawing a fully
transparent sprite — where no non-transparent pixel overlaps anything and
the claim requires Carry to be cleared — a previously set Carry flag is
still set. -/
theorem drw_carry_stale :
    sDrwC.flags.carry = true ∧ sDrwC.memory (hhllOf sDrwC) = 0 ∧
    flagsOf (cycle sDrwC buff0) = some ⟨true, false, false, false⟩ := by
  decide

/-- Counterexample for C9 as stated: after `BGC 0xF` the background color
packs to 0xFFFFFFFF, yet the immediately following CLS fills the
framebuffer with 0 — the fill uses the background color only after it has
been reset to Transparent, not the current background color. -/
theorem cls_ignores_prior_bgc_cex :
    (cycle sBgcCls buff7).toOption.map (fun r => Color.toU32 r.1.bg) =
      some 0xFFFFFFFF ∧
    ((cycle sBgcCls buff7).toOption.bind
        (fun r => (cycle r.1 r.2.1).toOption)).map (fun r => r.2.1 0) =
      some 0 := by decide

/-- Claim C9 (amended): executing opcode 0x01 (CLS) first sets the
foreground and background color registers to Transparent and then fills
every framebuffer cell with the packed value of the (now Transparent)
background color, i.e. 0x00000000, regardless of any background color a
preceding BGC had set. -/
theorem cls_spec (s : CHIP16) (screen : Buff)
    (hf : s.pc + 4 ≤ MEMORY) (hv : hhllOf s < MEMORY)
    (hop : s.memory s.pc = 0x01) :
    cycle s screen = Except.ok
      ({ s with
          pc := s.pc + 4
          bg := Color.Transparent
          fg := Color.Transparent },
        fun _ => Color.toU32 Color.Transparent, MState.Continue) := by
  rw [cycle_eq_dispatch s screen hf hv, hop]
  rfl

/-- Witness for C9 (amended): CLS executed while the background is White
fills with packed value 0, not White's 0xFFFFFFFF. -/
theorem cls_spec_witness :
    cycle sCls buff7 = Except.ok
      ({ sCls with
          pc := 4
          bg := Color.Transparent
          fg := Color.Transparent },
        fun _ => Color.toU32 Color.Transparent, MState.Continue) :=
  cls_spec sCls buff7 (by decide) (by decide) rfl

/-- Claim C10: every cycle invocation that returns normally leaves the
memory array and the stack pointer unchanged, and every non-arithmetic
opcode of the dispatch table additionally leaves all four condition flags
unchanged. -/
theorem cycle_preserves_memory_sp (s : CHIP16) (screen : Buff)
    (r : CHIP16 × Buff × MState) (h : cycle s screen = Except.ok r) :
    r.1.memory = s.memory ∧ r.1.sp = s.sp ∧
    (s.memory s.pc ∈
        ([0x01, 0x02, 0x03, 0x04, 0x10, 0x12, 0x13, 0x20, 0x24] : List Nat) →
      r.1.flags = s.flags) := by
  unfold cycle at h
  split at h
  case isFalse => exact Except.noConfusion h
  split at h
  case isFalse => exact Except.noConfusion h
  unfold dispatch at h
  split at h <;> (try split at h) <;> (try split at h)
  all_goals
    first
      | exact Except.noConfusion h
      | (simp only [Except.ok.injEq] at h
         subst h
         exact ⟨rfl, rfl, fun hmem => by simp_all⟩)

/-- Witness for C10: a taken `JME` leaves memory, SP and flags unchanged. -/
theorem cycle_preserves_memory_sp_witness :
    rJme.1.memory = sJme.memory ∧ rJme.1.sp = sJme.sp ∧
    (sJme.memory sJme.pc ∈
        ([0x01, 0x02, 0x03, 0x04, 0x10, 0x12, 0x13, 0x20, 0x24] : List Nat) →
      rJme.1.flags = sJme.flags) :=
  cycle_preserves_memory_sp sJme buff0 rJme (by rfl)

end Chip16
